import Mathlib

/-!
Verification development for the LINE-bot obligation scheduler.

The definitions below are a shallow embedding of the source:
- money obligations and their scheduler cycle (app/main.py, reminder_loop
  and create_money_request),
- questions, question targets and their scheduler cycle (app/main.py,
  question_reminder_loop; app/question_service.py, check_for_responses),
- the in-memory deduplication set of process_message_async,
- the Python-level parsing of classifier responses (app/main.py
  detect_money_request, app/question_service.py detect_question_and_targets,
  app/money_checker_service.py detect_payment_request).

Timestamps are Nat (ISO-8601 strings compare in timestamp order), database
ids are Nat, and external outcomes (push send success, raised exceptions)
are environment parameters.
-/

namespace PkshaHack

set_option maxRecDepth 8000

/-! ### Generic selection: supabase order-by-key ascending, limit 1 -/

/-- First element of the list achieving the minimal key, if any.  Models a
supabase query with an ascending order on the key and limit 1. -/
def selectMin {α : Type} (key : α → Nat) : List α → Option α
  | [] => none
  | x :: xs =>
    match selectMin key xs with
    | none => some x
    | some y => if key x ≤ key y then some x else some y

/-! ### Money obligations (app/main.py) -/

/-- A row of the money_requests table. -/
structure MoneyRow where
  id : Nat
  group_id : Nat
  requester_user_id : Nat
  amount : Int
  remind_at : Nat
  reminded_at : Option Nat
  deriving DecidableEq

/-- The database state relevant to the money reminder loop: the
money_requests table plus the ids present in the groups and users tables. -/
structure MoneyState where
  requests : List MoneyRow
  groups : List Nat
  users : List Nat
  deriving DecidableEq

/-- External outcomes of one money cycle: whether the group push send
reports success, and whether some call inside the try block raises. -/
structure MoneyEnv where
  sendOk : Bool
  raises : Bool
  deriving DecidableEq

/-- Rows matching the due query of reminder_loop:
remind_at lesseq now and reminded_at is null. -/
def dueMoney (s : MoneyState) (now : Nat) : List MoneyRow :=
  s.requests.filter (fun r => decide (r.remind_at ≤ now ∧ r.reminded_at = none))

/-- The single row processed by one cycle of reminder_loop: due rows
ordered by remind_at ascending, limit 1. -/
def selectDueMoney (s : MoneyState) (now : Nat) : Option MoneyRow :=
  selectMin (fun r => r.remind_at) (dueMoney s now)

/-- The update statement setting reminded_at on the row with the given id. -/
def markMoneyReminded (l : List MoneyRow) (rid now : Nat) : List MoneyRow :=
  l.map (fun r => if r.id = rid then { r with reminded_at := some now } else r)

/-- One pass of reminder_loop (app/main.py lines 297-438).  Selects the
oldest due row; if the group or requester row is missing, or an exception
is raised during processing, or the send succeeds, it sets reminded_at;
if the send reports failure it leaves the state untouched. -/
def moneyReminderCycle (env : MoneyEnv) (s : MoneyState) (now : Nat) : MoneyState :=
  match selectDueMoney s now with
  | none => s
  | some row =>
    if row.group_id ∈ s.groups then
      if row.requester_user_id ∈ s.users then
        if env.raises then
          { s with requests := markMoneyReminded s.requests row.id now }
        else if env.sendOk then
          { s with requests := markMoneyReminded s.requests row.id now }
        else s
      else
        { s with requests := markMoneyReminded s.requests row.id now }
    else
      { s with requests := markMoneyReminded s.requests row.id now }

/-- create_money_request (app/main.py lines 270-293).  The duplicate guard
rejects the insert when a row for the same (group, requester) pair has
remind_at strictly greater than now; otherwise a fresh row with
remind_at = now + delay_sec and reminded_at null is inserted. -/
def create_money_request (s : MoneyState) (now : Nat) (group_id requester_id : Nat)
    (amount : Int) (fresh : Nat) (delay_sec : Nat) : MoneyState :=
  if s.requests.any (fun r =>
      decide (r.group_id = group_id ∧ r.requester_user_id = requester_id ∧ now < r.remind_at)) then
    s
  else
    { s with requests := s.requests ++
        [{ id := fresh, group_id := group_id, requester_user_id := requester_id,
           amount := amount, remind_at := now + delay_sec, reminded_at := none }] }

/-! ### Questions and question targets
(app/main.py question_reminder_loop, app/question_service.py) -/

/-- A row of the questions table.  The error handler of
question_reminder_loop writes a reminded_at value on this table, which is
kept here as a field even though the selection query never reads it. -/
structure QuestionRow where
  id : Nat
  group_id : Nat
  questioner_user_id : Nat
  remind_at : Nat
  created_at : Nat
  resolved_at : Option Nat
  reminded_at : Option Nat
  deriving DecidableEq

/-- A row of the question_targets table. -/
structure TargetRow where
  id : Nat
  question_id : Nat
  target_user_id : Nat
  reminded_at : Option Nat
  responded_at : Option Nat
  deriving DecidableEq

/-- A row of the messages table, restricted to the columns read by
check_for_responses. -/
structure MessageRow where
  user_id : Nat
  group_id : Nat
  created_at : Nat
  deriving DecidableEq

/-- The database state relevant to the question reminder loop. -/
structure QuestionState where
  questions : List QuestionRow
  targets : List TargetRow
  messages : List MessageRow
  users : List Nat
  deriving DecidableEq

/-- External outcomes of one question cycle: whether an exception is raised
during processing, and the per-target-user outcome of the direct push send. -/
structure QuestionEnv where
  raises : Bool
  sendOk : Nat → Bool

/-- Targets of the given question whose responded_at is null. -/
def unrespondedTargets (s : QuestionState) (qid : Nat) : List TargetRow :=
  s.targets.filter (fun t => decide (t.question_id = qid ∧ t.responded_at = none))

/-- The update statements of check_for_responses setting responded_at for
every responding user of the question. -/
def markResponded (l : List TargetRow) (qid : Nat) (us : List Nat) (now : Nat) : List TargetRow :=
  l.map (fun t =>
    if t.question_id = qid ∧ t.target_user_id ∈ us then
      { t with responded_at := some now }
    else t)

/-- The update statement setting resolved_at on the question with the
given id. -/
def resolveQuestion (l : List QuestionRow) (qid now : Nat) : List QuestionRow :=
  l.map (fun q => if q.id = qid then { q with resolved_at := some now } else q)

/-- The update statement of the error handler of question_reminder_loop,
writing reminded_at on the questions table. -/
def markQuestionReminded (l : List QuestionRow) (qid now : Nat) : List QuestionRow :=
  l.map (fun q => if q.id = qid then { q with reminded_at := some now } else q)

/-- Messages of the group of q strictly later than its creation, as
queried by check_for_responses. -/
def laterMessages (s : QuestionState) (q : QuestionRow) : List MessageRow :=
  s.messages.filter (fun m => decide (m.group_id = q.group_id ∧ q.created_at < m.created_at))

/-- The responding users computed by check_for_responses: unresponded
target users having a message in the group later than the question. -/
def respondingUsers (s : QuestionState) (q : QuestionRow) (qid : Nat) : List Nat :=
  ((unrespondedTargets s qid).map (fun t => t.target_user_id)).filter
    (fun u => (laterMessages s q).any (fun m => decide (m.user_id = u)))

/-- The state after check_for_responses marked the responding users. -/
def checkMarkState (s : QuestionState) (q : QuestionRow) (qid now : Nat) : QuestionState :=
  { s with targets := markResponded s.targets qid (respondingUsers s q qid) now }

/-- QuestionService.check_for_responses (app/question_service.py lines
190-255).  Looks the question up by id; if every target already responded
it returns true without further writes; otherwise it collects the target
users having a message in the group later than the question, marks them
responded, resolves the question when no unresponded target remains, and
returns whether any response was found. -/
def check_for_responses (s : QuestionState) (qid : Nat) (now : Nat) : QuestionState × Bool :=
  match s.questions.find? (fun q2 => decide (q2.id = qid)) with
  | none => (s, false)
  | some q =>
    if (unrespondedTargets s qid).isEmpty then (s, true)
    else if (laterMessages s q).isEmpty then (s, false)
    else if (unrespondedTargets (checkMarkState s q qid now) qid).isEmpty then
      ({ checkMarkState s q qid now with
         questions := resolveQuestion (checkMarkState s q qid now).questions qid now }, true)
    else
      (checkMarkState s q qid now, !(respondingUsers s q qid).isEmpty)

/-- Questions matching the due query of question_reminder_loop:
remind_at lesseq now and resolved_at is null. -/
def dueQuestions (s : QuestionState) (now : Nat) : List QuestionRow :=
  s.questions.filter (fun q => decide (q.remind_at ≤ now ∧ q.resolved_at = none))

/-- The single question processed by one cycle: due questions ordered by
remind_at ascending, limit 1. -/
def selectDueQuestion (s : QuestionState) (now : Nat) : Option QuestionRow :=
  selectMin (fun q => q.remind_at) (dueQuestions s now)

/-- Targets fetched for reminding: responded_at null and reminded_at null. -/
def reminderTargets (s : QuestionState) (qid : Nat) : List TargetRow :=
  s.targets.filter (fun t =>
    decide (t.question_id = qid ∧ t.responded_at = none ∧ t.reminded_at = none))

/-- The per-target send loop of question_reminder_loop: a target whose user
row exists and whose direct send succeeds gets reminded_at set. -/
def markTargetsReminded (env : QuestionEnv) (l : List TargetRow) (qid : Nat)
    (users : List Nat) (now : Nat) : List TargetRow :=
  l.map (fun t =>
    if t.question_id = qid ∧ t.responded_at = none ∧ t.reminded_at = none ∧
        t.target_user_id ∈ users ∧ env.sendOk t.target_user_id = true then
      { t with reminded_at := some now }
    else t)

/-- The target users a cycle sends a direct reminder to: unresponded
unreminded targets of the question whose user row exists and whose send
succeeds. -/
def cycleSent (env : QuestionEnv) (s1 : QuestionState) (qid : Nat) : List Nat :=
  ((reminderTargets s1 qid).filter (fun t =>
    decide (t.target_user_id ∈ s1.users) && env.sendOk t.target_user_id)).map
    (fun t => t.target_user_id)

/-- The state after the per-target send loop marked the successfully
reminded targets. -/
def cycleMarkState (env : QuestionEnv) (s1 : QuestionState) (qid now : Nat) : QuestionState :=
  { s1 with targets := markTargetsReminded env s1.targets qid s1.users now }

/-- One pass of question_reminder_loop (app/main.py lines 441-567).
Returns the new state and the list of target users a reminder was sent to.
Selects the oldest due unresolved question; on a raised exception the error
handler sets reminded_at on the questions table; otherwise it runs
check_for_responses and, when that reports no response, sends one direct
reminder per unresponded unreminded target with an existing user row,
marking each successfully sent target, and finally resolves the question
when no unresponded target remains. -/
def question_reminder_cycle (env : QuestionEnv) (s : QuestionState) (now : Nat) :
    QuestionState × List Nat :=
  match selectDueQuestion s now with
  | none => (s, [])
  | some q =>
    if env.raises then
      ({ s with questions := markQuestionReminded s.questions q.id now }, [])
    else if (check_for_responses s q.id now).2 then
      ((check_for_responses s q.id now).1, [])
    else if (unrespondedTargets
        (cycleMarkState env (check_for_responses s q.id now).1 q.id now) q.id).isEmpty then
      ({ cycleMarkState env (check_for_responses s q.id now).1 q.id now with
         questions := resolveQuestion
           (cycleMarkState env (check_for_responses s q.id now).1 q.id now).questions q.id now },
       cycleSent env (check_for_responses s q.id now).1 q.id)
    else
      (cycleMarkState env (check_for_responses s q.id now).1 q.id now,
       cycleSent env (check_for_responses s q.id now).1 q.id)

/-! ### Deduplication guard (app/main.py process_message_async) -/

/-- Result of processing one inbound event: the new processed-ids set and
the number of message rows persisted and replies sent by the fan-out. -/
structure ProcessResult where
  seen : List Nat
  saved : Nat
  replies : Nat
  deriving DecidableEq

/-- The dedup guard and fan-out skeleton of process_message_async
(app/main.py lines 604-624 and 746).  A duplicate id is dropped before any
side effect; a fresh id is recorded and, when the set size then exceeds
1000, the first 500 ids of the set iteration order iter are discarded.
Python leaves the iteration order of a set unspecified, so iter is a
parameter; it is meaningful when it enumerates the set after insertion. -/
def processEvent (iter : List Nat) (seen : List Nat) (mid : Nat) : ProcessResult :=
  if mid ∈ seen then { seen := seen, saved := 0, replies := 0 }
  else
    { seen := if 1000 < (seen ++ [mid]).length then
        (seen ++ [mid]).filter (fun x => decide (x ∉ iter.take 500))
      else seen ++ [mid],
      saved := 1, replies := 1 }

/-! ### Python-level classifier response parsing -/

/-- The Python values a parsed classifier response can hold.  Floats are
carried as their exact rational value. -/
inductive PyVal where
  | vnone : PyVal
  | vbool : Bool → PyVal
  | vint : Int → PyVal
  | vfloat : Rat → PyVal
  | vstr : String → PyVal
  deriving DecidableEq

/-- A parsed JSON object: a Python dict as an association list. -/
abbrev PyObj := List (String × PyVal)

/-- Python dict.get with default None. -/
def pyGet (obj : PyObj) (k : String) : PyVal :=
  match obj.find? (fun p => decide (p.1 = k)) with
  | some p => p.2
  | none => PyVal.vnone

/-- Python membership test on a dict. -/
def pyHasKey (obj : PyObj) (k : String) : Bool :=
  (obj.find? (fun p => decide (p.1 = k))).isSome

/-- Python truthiness of a value. -/
def pyTruthy : PyVal → Bool
  | .vnone => false
  | .vbool b => b
  | .vint i => decide (i ≠ 0)
  | .vfloat q => decide (q ≠ 0)
  | .vstr s => decide (s ≠ "")

/-- Truncation toward zero of a rational, as Python int() applied to a
float. -/
def pyTrunc (q : Rat) : Int :=
  if q.num < 0 then -(Int.ofNat (q.num.natAbs / q.den)) else Int.ofNat (q.num.natAbs / q.den)

/-- The characters Python treats as whitespace (regex backslash-s on str
patterns and the stripping done by int()): the CPython Py_UNICODE_ISSPACE
set, that is tab through carriage return, the C1 separators 1C-1F, space,
NEL, no-break space, Ogham space mark, the U+2000 block spaces, the line
and paragraph separators, narrow no-break space, medium mathematical
space and the ideographic space U+3000. -/
def pyIsSpace (c : Char) : Bool :=
  decide ((0x9 ≤ c.toNat ∧ c.toNat ≤ 0xD) ∨ (0x1C ≤ c.toNat ∧ c.toNat ≤ 0x1F) ∨
    c.toNat = 0x20 ∨ c.toNat = 0x85 ∨ c.toNat = 0xA0 ∨ c.toNat = 0x1680 ∨
    (0x2000 ≤ c.toNat ∧ c.toNat ≤ 0x200A) ∨ c.toNat = 0x2028 ∨ c.toNat = 0x2029 ∨
    c.toNat = 0x202F ∨ c.toNat = 0x205F ∨ c.toNat = 0x3000)

/-- The first code point of every run of ten decimal digits of Unicode
category Nd: the digits matched by Python regex backslash-d on str
patterns and converted by int().  One entry per run, the five runs of the
mathematical alphanumeric digits listed individually. -/
def pyDigitStarts : List Nat :=
  [0x30, 0x660, 0x6F0, 0x7C0, 0x966, 0x9E6, 0xA66, 0xAE6, 0xB66, 0xBE6,
   0xC66, 0xCE6, 0xD66, 0xDE6, 0xE50, 0xED0, 0xF20, 0x1040, 0x1090, 0x17E0,
   0x1810, 0x1946, 0x19D0, 0x1A80, 0x1A90, 0x1B50, 0x1BB0, 0x1C40, 0x1C50,
   0xA620, 0xA8D0, 0xA900, 0xA9D0, 0xA9F0, 0xAA50, 0xABF0, 0xFF10,
   0x104A0, 0x10D30, 0x11066, 0x110F0, 0x11136, 0x111D0, 0x112F0, 0x11450,
   0x114D0, 0x11650, 0x116C0, 0x11730, 0x118E0, 0x11950, 0x11C50, 0x11D50,
   0x11DA0, 0x11F50, 0x16A60, 0x16AC0, 0x16B50, 0x1D7CE, 0x1D7D8, 0x1D7E2,
   0x1D7EC, 0x1D7F6, 0x1E140, 0x1E2F0, 0x1E4F0, 0x1E950, 0x1FBF0]

/-- The decimal value of a Unicode decimal digit, none for any other
character: Python int() converts every category-Nd digit by its decimal
value, so the full-width ５ counts as 5. -/
def pyDigitVal (c : Char) : Option Nat :=
  match pyDigitStarts.find? (fun s => decide (s ≤ c.toNat ∧ c.toNat < s + 10)) with
  | some s => some (c.toNat - s)
  | none => none

/-- Both-ends whitespace stripping, as Python int() applies to its string
argument. -/
def pyStrip (cs : List Char) : List Char :=
  ((cs.dropWhile pyIsSpace).reverse.dropWhile pyIsSpace).reverse

/-- The digits after the first one in the int() literal grammar: a single
underscore is allowed between two digits and nowhere else. -/
def pyDigitsRest : List Char → Nat → Option Nat
  | [], acc => some acc
  | '_' :: rest, acc =>
    match rest with
    | c :: rest2 =>
      match pyDigitVal c with
      | some d => pyDigitsRest rest2 (acc * 10 + d)
      | none => none
    | [] => none
  | c :: rest, acc =>
    match pyDigitVal c with
    | some d => pyDigitsRest rest (acc * 10 + d)
    | none => none

/-- An unsigned int() literal: a digit followed by digits with optional
single underscores between them. -/
def pyParseUnsigned (cs : List Char) : Option Nat :=
  match cs with
  | c :: rest =>
    match pyDigitVal c with
    | some d => pyDigitsRest rest d
    | none => none
  | [] => none

/-- Python int() applied to a string: strip whitespace at both ends, an
optional plus or minus sign, then a run of Unicode decimal digits with
optional single underscores between digits; anything else raises
ValueError (none). -/
def pyStrToInt (s : String) : Option Int :=
  match pyStrip s.toList with
  | '+' :: rest => (pyParseUnsigned rest).map (fun n => Int.ofNat n)
  | '-' :: rest => (pyParseUnsigned rest).map (fun n => -(Int.ofNat n))
  | cs => (pyParseUnsigned cs).map (fun n => Int.ofNat n)

/-- Python int() applied to a value: identity on ints, 0 or 1 on bools,
truncation on floats, the int() string grammar on strings; None means the
call raises (ValueError or TypeError). -/
def pyToInt : PyVal → Option Int
  | .vnone => none
  | .vbool b => some (if b then 1 else 0)
  | .vint i => some i
  | .vfloat q => some (pyTrunc q)
  | .vstr s => pyStrToInt s

/-- The parsing and guarding done by detect_money_request (app/main.py
lines 674-698) after the model call.  The argument is the JSON parse of
the response, none when parsing failed; the value returned is the amount
create_money_request is invoked with, none when it is not invoked.  Every
parse or conversion error is caught, so nothing propagates. -/
def detect_money_request_action (parsed : Option PyObj) : Option Int :=
  match parsed with
  | none => none
  | some dt =>
    if pyTruthy (pyGet dt "yes") && pyHasKey dt "amount" then
      match pyToInt (pyGet dt "amount") with
      | some a => if 0 < a then some a else none
      | none => none
    else none

/-- The parsing done by QuestionService.detect_question_and_targets
(app/question_service.py lines 89-114): a response that fails to parse, or
whose is_question field is not truthy, yields none; otherwise the group
member ids are targeted (both target_type branches use them) and the
question content defaults to the message text. -/
def detect_question_and_targets (parsed : Option PyObj) (memberIds : List Nat)
    (messageText : String) : Option (Bool × List Nat × PyVal) :=
  match parsed with
  | none => none
  | some dt =>
    if pyTruthy (pyGet dt "is_question") then
      let content := if pyHasKey dt "question_content" then pyGet dt "question_content"
        else PyVal.vstr messageText
      some (true, memberIds, content)
    else none

/-- The value of a run of Unicode decimal digits, as int() computes it on
a regex group of backslash-d characters. -/
def pyDigitRunVal (ds : List Char) : Nat :=
  ds.foldl (fun acc c => acc * 10 + (pyDigitVal c).getD 0) 0

/-- The regex fallback of MoneyCheckerService.detect_payment_request:
re.search with a group of one or more backslash-d digits, optional
backslash-s whitespace and the yen sign finds the leftmost such match in
the message (Unicode digits and Unicode whitespace included, as Python
str patterns match them), and int() of the digit group gives the amount. -/
def scanYen : List Char → Option Nat
  | [] => none
  | c :: rest =>
    if (pyDigitVal c).isSome then
      match ((c :: rest).dropWhile (fun ch => (pyDigitVal ch).isSome)).dropWhile pyIsSpace with
      | '円' :: _ =>
        some (pyDigitRunVal ((c :: rest).takeWhile (fun ch => (pyDigitVal ch).isSome)))
      | _ => scanYen rest
    else scanYen rest

/-- The amount of the regex fallback verdict: the extracted yen value as a
Python int, or None when no match. -/
def fallbackAmount (messageText : String) : PyVal :=
  match scanYen messageText.toList with
  | some n => PyVal.vint (Int.ofNat n)
  | none => PyVal.vnone

/-- The fallback verdict built by the JSONDecodeError handler of
detect_payment_request. -/
def fallbackVerdict (messageText : String) : PyObj :=
  [("is_payment_request", PyVal.vbool true),
   ("amount", fallbackAmount messageText),
   ("reason", PyVal.vstr "Fallback detection with regex")]

/-- MoneyCheckerService.detect_payment_request
(app/money_checker_service.py lines 27-83) after the model call.  A
response that parses is returned as is; a response that fails to parse is
replaced by a positive fallback verdict whose amount is extracted from the
original message text by regex, null when no match. -/
def detect_payment_request (parsed : Option PyObj) (messageText : String) : PyObj :=
  match parsed with
  | some obj => obj
  | none => fallbackVerdict messageText

/-- MoneyCheckerService.process_group_message (lines 130-165): the amount
passed to save_payment_request, none when nothing is saved.  Saving
requires both is_payment_request and amount to be truthy. -/
def process_group_message_saves (parsed : Option PyObj) (messageText : String) : Option PyVal :=
  if pyTruthy (pyGet (detect_payment_request parsed messageText) "is_payment_request") &&
      pyTruthy (pyGet (detect_payment_request parsed messageText) "amount") then
    some (pyGet (detect_payment_request parsed messageText) "amount")
  else none

/-! ### Concrete states used by counterexamples and witnesses -/

/-- A due, not yet reminded money obligation for group 10, requester 20. -/
def c1State : MoneyState :=
  { requests := [{ id := 1, group_id := 10, requester_user_id := 20, amount := 500,
                   remind_at := 5, reminded_at := none }],
    groups := [10], users := [20] }

/-- The single row of c1State. -/
def c1Row : MoneyRow :=
  { id := 1, group_id := 10, requester_user_id := 20, amount := 500,
    remind_at := 5, reminded_at := none }

/-- Environment where the push send succeeds and nothing raises. -/
def c1EnvOk : MoneyEnv := { sendOk := true, raises := false }

/-- A money obligation that is due (remind_at 5) and still unreminded at
time 10: an active obligation in the sense of the specification. -/
def c2State : MoneyState :=
  { requests := [{ id := 1, group_id := 10, requester_user_id := 20, amount := 500,
                   remind_at := 5, reminded_at := none }],
    groups := [10], users := [20] }

/-- Three due money obligations with remind_at 3 lt 6 lt 9. -/
def c3State : MoneyState :=
  { requests := [{ id := 1, group_id := 10, requester_user_id := 20, amount := 100,
                   remind_at := 3, reminded_at := none },
                 { id := 2, group_id := 10, requester_user_id := 21, amount := 200,
                   remind_at := 6, reminded_at := none },
                 { id := 3, group_id := 11, requester_user_id := 22, amount := 300,
                   remind_at := 9, reminded_at := none }],
    groups := [10, 11], users := [20, 21, 22] }

/-- Question environment where every direct send succeeds and nothing
raises. -/
def qEnvOk : QuestionEnv := { raises := false, sendOk := fun _ => true }

/-- The concrete scenario of the specification: question 100 asked by user
1 in group 10 at time 0 with remind_at 30 and targets 2 (A) and 3 (B);
user 2 posted in the group at time 10. -/
def c4State : QuestionState :=
  { questions := [{ id := 100, group_id := 10, questioner_user_id := 1,
                    remind_at := 30, created_at := 0,
                    resolved_at := none, reminded_at := none }],
    targets := [{ id := 201, question_id := 100, target_user_id := 2,
                  reminded_at := none, responded_at := none },
                { id := 202, question_id := 100, target_user_id := 3,
                  reminded_at := none, responded_at := none }],
    messages := [{ user_id := 2, group_id := 10, created_at := 10 }],
    users := [1, 2, 3] }

/-- A state for exercising question resolution: one due question whose
single target already has a response message in the group. -/
def c5State : QuestionState :=
  { questions := [{ id := 100, group_id := 10, questioner_user_id := 1,
                    remind_at := 30, created_at := 0,
                    resolved_at := none, reminded_at := none }],
    targets := [{ id := 201, question_id := 100, target_user_id := 2,
                  reminded_at := none, responded_at := none }],
    messages := [{ user_id := 2, group_id := 10, created_at := 10 }],
    users := [1, 2] }

/-- A due question whose processing raises an exception: a poison item. -/
def c6State : QuestionState :=
  { questions := [{ id := 100, group_id := 10, questioner_user_id := 1,
                    remind_at := 5, created_at := 0,
                    resolved_at := none, reminded_at := none }],
    targets := [{ id := 201, question_id := 100, target_user_id := 2,
                  reminded_at := none, responded_at := none }],
    messages := [],
    users := [] }

/-- Question environment where processing raises an exception. -/
def c6Env : QuestionEnv := { raises := true, sendOk := fun _ => true }

/-- Ids seen by the dedup guard, in arrival order 0 to 999. -/
def c9Insertion : List Nat := List.range 1000

/-- One admissible Python set iteration order of the set after inserting
id 1000: the newest id happens to come first in the hash-table order. -/
def c9Iter : List Nat := 1000 :: List.range 1000

/-- A classifier response whose amount field is the non-integer 12.7. -/
def c10Resp : PyObj := [("yes", PyVal.vbool true), ("amount", PyVal.vfloat (mkRat 127 10))]

/-! ## Lemmas about the selection helper -/

theorem selectMin_eq_none_iff {α : Type} (key : α → Nat) (l : List α) :
    selectMin key l = none ↔ l = [] := by
  cases l with
  | nil => simp [selectMin]
  | cons a as =>
    simp only [selectMin]
    cases selectMin key as with
    | none => simp
    | some y => by_cases h : key a ≤ key y <;> simp [h]

theorem selectMin_mem {α : Type} {key : α → Nat} {l : List α} {x : α}
    (h : selectMin key l = some x) : x ∈ l := by
  induction l generalizing x with
  | nil => simp [selectMin] at h
  | cons a as ih =>
    simp only [selectMin] at h
    cases hs : selectMin key as with
    | none =>
      rw [hs] at h
      simp only [Option.some.injEq] at h
      exact h ▸ List.mem_cons_self a as
    | some y =>
      rw [hs] at h
      by_cases hk : key a ≤ key y
      · simp only [if_pos hk, Option.some.injEq] at h
        exact h ▸ List.mem_cons_self a as
      · simp only [if_neg hk, Option.some.injEq] at h
        exact h ▸ List.mem_cons_of_mem a (ih hs)

theorem selectMin_le {α : Type} {key : α → Nat} {l : List α} {x : α}
    (h : selectMin key l = some x) : ∀ y ∈ l, key x ≤ key y := by
  induction l generalizing x with
  | nil => simp [selectMin] at h
  | cons a as ih =>
    simp only [selectMin] at h
    cases hs : selectMin key as with
    | none =>
      rw [hs] at h
      simp only [Option.some.injEq] at h
      have has : as = [] := (selectMin_eq_none_iff key as).mp hs
      subst has
      intro y hy
      simp only [List.mem_singleton] at hy
      subst hy
      exact h ▸ le_refl _
    | some y0 =>
      rw [hs] at h
      by_cases hk : key a ≤ key y0
      · simp only [if_pos hk, Option.some.injEq] at h
        subst h
        intro y hy
        rcases List.mem_cons.mp hy with rfl | hy2
        · exact le_refl _
        · exact le_trans hk (ih hs y hy2)
      · simp only [if_neg hk, Option.some.injEq] at h
        subst h
        intro y hy
        rcases List.mem_cons.mp hy with rfl | hy2
        · exact le_of_not_le hk
        · exact ih hs y hy2

/-! ## Lemmas about the money cycle -/

theorem mem_dueMoney {s : MoneyState} {now : Nat} {r : MoneyRow} :
    r ∈ dueMoney s now ↔ r ∈ s.requests ∧ r.remind_at ≤ now ∧ r.reminded_at = none := by
  simp [dueMoney, List.mem_filter]

theorem selectDueMoney_spec {s : MoneyState} {now : Nat} {r : MoneyRow}
    (h : selectDueMoney s now = some r) :
    r ∈ s.requests ∧ r.remind_at ≤ now ∧ r.reminded_at = none ∧
    ∀ r' ∈ s.requests, r'.remind_at ≤ now → r'.reminded_at = none →
      r.remind_at ≤ r'.remind_at := by
  have hm := mem_dueMoney.mp (selectMin_mem h)
  refine ⟨hm.1, hm.2.1, hm.2.2, ?_⟩
  intro r' hr' h1 h2
  exact selectMin_le h r' (mem_dueMoney.mpr ⟨hr', h1, h2⟩)

theorem selectDueMoney_eq {s : MoneyState} {now : Nat} {r : MoneyRow}
    (hmem : r ∈ s.requests) (h1 : r.remind_at ≤ now) (h2 : r.reminded_at = none)
    (hmin : ∀ r' ∈ s.requests, r'.remind_at ≤ now → r'.reminded_at = none →
      r.remind_at ≤ r'.remind_at ∧ (r'.remind_at = r.remind_at → r' = r)) :
    selectDueMoney s now = some r := by
  cases hsel : selectDueMoney s now with
  | none =>
    exfalso
    have : dueMoney s now = [] := (selectMin_eq_none_iff _ _).mp hsel
    have : r ∈ ([] : List MoneyRow) := this ▸ mem_dueMoney.mpr ⟨hmem, h1, h2⟩
    simp at this
  | some x =>
    have hx := mem_dueMoney.mp (selectMin_mem hsel)
    have hxr : x.remind_at ≤ r.remind_at :=
      selectMin_le hsel r (mem_dueMoney.mpr ⟨hmem, h1, h2⟩)
    have hrx := hmin x hx.1 hx.2.1 hx.2.2
    have : x.remind_at = r.remind_at := le_antisymm hxr hrx.1
    rw [hrx.2 this]

theorem markMoneyReminded_marks {l : List MoneyRow} {rid now : Nat} :
    ∀ r ∈ markMoneyReminded l rid now, r.id = rid → r.reminded_at = some now := by
  intro r hr hid
  rcases List.mem_map.mp hr with ⟨r0, hr0, heq⟩
  subst heq
  by_cases h : r0.id = rid
  · simp [h]
  · simp only [if_neg h] at hid
    exact absurd hid h

theorem markMoneyReminded_decomp {l : List MoneyRow} {rid now : Nat} {r : MoneyRow}
    (h : r ∈ markMoneyReminded l rid now) :
    ∃ r0 ∈ l, r = if r0.id = rid then { r0 with reminded_at := some now } else r0 := by
  rcases List.mem_map.mp h with ⟨r0, hr0, heq⟩
  exact ⟨r0, hr0, heq.symm⟩

theorem markMoneyReminded_mem_of_ne {l : List MoneyRow} {rid now : Nat} {r : MoneyRow}
    (h : r ∈ l) (hne : r.id ≠ rid) : r ∈ markMoneyReminded l rid now := by
  have : (if r.id = rid then { r with reminded_at := some now } else r) = r := if_neg hne
  exact this ▸ List.mem_map_of_mem _ h

theorem markMoneyReminded_due_decomp {l : List MoneyRow} {rid now : Nat} {r : MoneyRow}
    (h : r ∈ markMoneyReminded l rid now) (hdue : r.reminded_at = none) :
    r ∈ l ∧ r.id ≠ rid := by
  rcases markMoneyReminded_decomp h with ⟨r0, hr0, heq⟩
  by_cases hc : r0.id = rid
  · rw [if_pos hc] at heq
    rw [heq] at hdue
    simp at hdue
  · rw [if_neg hc] at heq
    subst heq
    exact ⟨hr0, hc⟩

theorem markMoneyReminded_pres {l : List MoneyRow} {rid now j : Nat}
    (h : ∀ r ∈ l, r.id = j → r.reminded_at ≠ none) :
    ∀ r ∈ markMoneyReminded l rid now, r.id = j → r.reminded_at ≠ none := by
  intro r hr hid
  rcases markMoneyReminded_decomp hr with ⟨r0, hr0, heq⟩
  by_cases hc : r0.id = rid
  · rw [if_pos hc] at heq
    rw [heq]
    simp
  · rw [if_neg hc] at heq
    subst heq
    exact h r hr0 hid

theorem moneyReminderCycle_sendOk {env : MoneyEnv} {s : MoneyState} {now : Nat} {row : MoneyRow}
    (hsel : selectDueMoney s now = some row)
    (hg : row.group_id ∈ s.groups)
    (hu : row.requester_user_id ∈ s.users)
    (hraise : env.raises = false)
    (hsend : env.sendOk = true) :
    moneyReminderCycle env s now =
      { s with requests := markMoneyReminded s.requests row.id now } := by
  unfold moneyReminderCycle
  rw [hsel]
  simp [hg, hu, hraise, hsend]

/-! ## C1 -/

/-- C1: for a due money obligation selected by a scheduler cycle, a
successful group send sets reminded_at on its row (every row carrying its
id is marked), and a failed send leaves the whole state untouched, so the
obligation stays in the due set of every later cycle. -/
theorem c1_money_exactly_once (env : MoneyEnv) (s : MoneyState) (now : Nat) (row : MoneyRow)
    (hsel : selectDueMoney s now = some row)
    (hg : row.group_id ∈ s.groups)
    (hu : row.requester_user_id ∈ s.users)
    (hraise : env.raises = false) :
    (env.sendOk = true →
      (∃ r ∈ (moneyReminderCycle env s now).requests, r.id = row.id) ∧
      ∀ r ∈ (moneyReminderCycle env s now).requests, r.id = row.id →
        r.reminded_at = some now) ∧
    (env.sendOk = false →
      moneyReminderCycle env s now = s ∧
      ∀ later, now ≤ later → row ∈ dueMoney (moneyReminderCycle env s now) later) := by
  have hspec := selectDueMoney_spec hsel
  constructor
  · intro hsend
    rw [moneyReminderCycle_sendOk hsel hg hu hraise hsend]
    constructor
    · refine ⟨(fun r => if r.id = row.id then { r with reminded_at := some now } else r) row,
        List.mem_map_of_mem _ hspec.1, ?_⟩
      simp
    · intro r hr hid
      exact markMoneyReminded_marks r hr hid
  · intro hsend
    have hcyc : moneyReminderCycle env s now = s := by
      unfold moneyReminderCycle
      rw [hsel]
      simp [hg, hu, hraise, hsend]
    refine ⟨hcyc, ?_⟩
    intro later hlater
    rw [hcyc]
    exact mem_dueMoney.mpr ⟨hspec.1, le_trans hspec.2.1 hlater, hspec.2.2.1⟩

/-- Witness for C1 at a concrete due obligation: the send succeeds and the
row is marked with the cycle time. -/
theorem c1_money_exactly_once_witness :
    selectDueMoney c1State 9 = some c1Row ∧
    ∀ r ∈ (moneyReminderCycle c1EnvOk c1State 9).requests, r.id = c1Row.id →
      r.reminded_at = some 9 := by
  refine ⟨by decide, ?_⟩
  have h := c1_money_exactly_once c1EnvOk c1State 9 c1Row (by decide) (by decide)
    (by decide) (by decide)
  exact (h.1 (by decide)).2

/-! ## C2 -/

/-- C2 counterexample: c2State holds one active money obligation for the
pair (10, 20), active in the sense of the claim (reminded_at null, here
even due and unresolved), yet create_money_request at time 10 inserts a
second row instead of rejecting the attempt: the duplicate guard compares
remind_at with now and ignores reminded_at. -/
theorem c2_counterexample :
    (c2State.requests.filter (fun r =>
      decide (r.group_id = 10 ∧ r.requester_user_id = 20 ∧ r.reminded_at = none))).length = 1 ∧
    ((create_money_request c2State 10 10 20 700 2 20).requests.filter (fun r =>
      decide (r.group_id = 10 ∧ r.requester_user_id = 20))).length = 2 := by
  decide

/-- C2 amended: a second creation attempt for a (group, requester) pair is
rejected as a no-op exactly while an existing row of the pair has remind_at
strictly in the future; once every row of the pair has remind_at lesseq now
(in particular after the obligation has been reminded, which only happens
once it is due) a new creation attempt inserts a fresh row. -/
theorem c2_duplicate_guard (s : MoneyState) (now g u fresh delay : Nat) (amt : Int) :
    ((∃ r ∈ s.requests, r.group_id = g ∧ r.requester_user_id = u ∧ now < r.remind_at) →
      create_money_request s now g u amt fresh delay = s) ∧
    ((∀ r ∈ s.requests, r.group_id = g → r.requester_user_id = u → r.remind_at ≤ now) →
      (create_money_request s now g u amt fresh delay).requests =
        s.requests ++ [{ id := fresh, group_id := g, requester_user_id := u, amount := amt,
                         remind_at := now + delay, reminded_at := none }]) := by
  constructor
  · rintro ⟨r, hr, h1, h2, h3⟩
    unfold create_money_request
    have hany : (s.requests.any (fun r =>
        decide (r.group_id = g ∧ r.requester_user_id = u ∧ now < r.remind_at))) = true :=
      List.any_eq_true.mpr ⟨r, hr, by simp [h1, h2, h3]⟩
    rw [if_pos hany]
  · intro hall
    unfold create_money_request
    have hany : (s.requests.any (fun r =>
        decide (r.group_id = g ∧ r.requester_user_id = u ∧ now < r.remind_at))) = false := by
      rw [List.any_eq_false]
      intro r hr
      simp only [decide_eq_true_eq, not_and]
      intro h1 h2
      exact not_lt.mpr (hall r hr h1 h2)
    have hne : ¬ ((s.requests.any (fun r =>
        decide (r.group_id = g ∧ r.requester_user_id = u ∧ now < r.remind_at))) = true) := by
      rw [hany]
      exact Bool.false_ne_true
    rw [if_neg hne]

/-- Witness for C2 amended: the guard rejects at a state whose row has a
future remind_at. -/
theorem c2_duplicate_guard_witness :
    (∃ r ∈ c1State.requests, r.group_id = 10 ∧ r.requester_user_id = 20 ∧ 3 < r.remind_at) ∧
    create_money_request c1State 3 10 20 700 2 20 = c1State := by
  refine ⟨by decide, ?_⟩
  exact (c2_duplicate_guard c1State 3 10 20 2 20 700).1 (by decide)

/-! ## C3 -/

/-- C3: when the due-and-unreminded set consists of three obligations with
strictly increasing remind_at, three consecutive cycles (at non-decreasing
times, with sends succeeding) select them in remind_at order, one per
cycle, and after the third cycle every row of the three is marked
reminded. -/
theorem c3_fairness (env : MoneyEnv) (s : MoneyState) (r1 r2 r3 : MoneyRow) (n1 n2 n3 : Nat)
    (hm1 : r1 ∈ s.requests) (hm2 : r2 ∈ s.requests) (hm3 : r3 ∈ s.requests)
    (ha1 : r1.reminded_at = none) (ha2 : r2.reminded_at = none) (ha3 : r3.reminded_at = none)
    (ht12 : r1.remind_at < r2.remind_at) (ht23 : r2.remind_at < r3.remind_at)
    (hdue : r3.remind_at ≤ n1) (hn12 : n1 ≤ n2) (hn23 : n2 ≤ n3)
    (hother : ∀ r ∈ s.requests, r ≠ r1 → r ≠ r2 → r ≠ r3 →
      ¬(r.remind_at ≤ n3 ∧ r.reminded_at = none))
    (hnodup : (s.requests.map (fun r => r.id)).Nodup)
    (hraise : env.raises = false) (hsend : env.sendOk = true)
    (hg1 : r1.group_id ∈ s.groups) (hg2 : r2.group_id ∈ s.groups) (hg3 : r3.group_id ∈ s.groups)
    (hu1 : r1.requester_user_id ∈ s.users) (hu2 : r2.requester_user_id ∈ s.users)
    (hu3 : r3.requester_user_id ∈ s.users) :
    selectDueMoney s n1 = some r1 ∧
    selectDueMoney (moneyReminderCycle env s n1) n2 = some r2 ∧
    selectDueMoney (moneyReminderCycle env (moneyReminderCycle env s n1) n2) n3 = some r3 ∧
    ∀ r ∈ (moneyReminderCycle env
        (moneyReminderCycle env (moneyReminderCycle env s n1) n2) n3).requests,
      (r.id = r1.id ∨ r.id = r2.id ∨ r.id = r3.id) → r.reminded_at ≠ none := by
  have hinj : ∀ a ∈ s.requests, ∀ b ∈ s.requests, a.id = b.id → a = b :=
    fun a ha b hb hab => List.inj_on_of_nodup_map hnodup ha hb hab
  have ht13 : r1.remind_at < r3.remind_at := lt_trans ht12 ht23
  have hne12 : r1 ≠ r2 := by
    intro h
    rw [h] at ht12
    exact lt_irrefl _ ht12
  have hne13 : r1 ≠ r3 := by
    intro h
    rw [h] at ht13
    exact lt_irrefl _ ht13
  have hne23 : r2 ≠ r3 := by
    intro h
    rw [h] at ht23
    exact lt_irrefl _ ht23
  have hid12 : r1.id ≠ r2.id := fun h => hne12 (hinj r1 hm1 r2 hm2 h)
  have hid13 : r1.id ≠ r3.id := fun h => hne13 (hinj r1 hm1 r3 hm3 h)
  have hid23 : r2.id ≠ r3.id := fun h => hne23 (hinj r2 hm2 r3 hm3 h)
  have hclass : ∀ r' ∈ s.requests, r'.remind_at ≤ n3 → r'.reminded_at = none →
      r' = r1 ∨ r' = r2 ∨ r' = r3 := by
    intro r' hr' hle hnone
    by_cases e1 : r' = r1
    · exact Or.inl e1
    by_cases e2 : r' = r2
    · exact Or.inr (Or.inl e2)
    by_cases e3 : r' = r3
    · exact Or.inr (Or.inr e3)
    exact absurd ⟨hle, hnone⟩ (hother r' hr' e1 e2 e3)
  have h1le : r1.remind_at ≤ n1 := le_of_lt (lt_of_lt_of_le ht13 hdue)
  have h2le : r2.remind_at ≤ n1 := le_of_lt (lt_of_lt_of_le ht23 hdue)
  have hn13 : n1 ≤ n3 := le_trans hn12 hn23
  have hsel1 : selectDueMoney s n1 = some r1 := by
    apply selectDueMoney_eq hm1 h1le ha1
    intro r' hr' hle hnone
    rcases hclass r' hr' (le_trans hle hn13) hnone with rfl | rfl | rfl
    · exact ⟨le_refl _, fun _ => rfl⟩
    · exact ⟨le_of_lt ht12, fun h => absurd h (ne_of_gt ht12)⟩
    · exact ⟨le_of_lt ht13, fun h => absurd h (ne_of_gt ht13)⟩
  have hcyc1 : moneyReminderCycle env s n1 =
      { s with requests := markMoneyReminded s.requests r1.id n1 } :=
    moneyReminderCycle_sendOk hsel1 hg1 hu1 hraise hsend
  have hm2s1 : r2 ∈ (moneyReminderCycle env s n1).requests := by
    rw [hcyc1]
    exact markMoneyReminded_mem_of_ne hm2 (Ne.symm hid12)
  have hm3s1 : r3 ∈ (moneyReminderCycle env s n1).requests := by
    rw [hcyc1]
    exact markMoneyReminded_mem_of_ne hm3 (Ne.symm hid13)
  have hdec1 : ∀ r' ∈ (moneyReminderCycle env s n1).requests, r'.reminded_at = none →
      r' ∈ s.requests ∧ r'.id ≠ r1.id := by
    intro r' hr' hnone
    rw [hcyc1] at hr'
    exact markMoneyReminded_due_decomp hr' hnone
  have hsel2 : selectDueMoney (moneyReminderCycle env s n1) n2 = some r2 := by
    apply selectDueMoney_eq hm2s1 (le_trans h2le hn12) ha2
    intro r' hr' hle hnone
    rcases hdec1 r' hr' hnone with ⟨hr's, hr'id⟩
    rcases hclass r' hr's (le_trans hle hn23) hnone with rfl | rfl | rfl
    · exact absurd rfl hr'id
    · exact ⟨le_refl _, fun _ => rfl⟩
    · exact ⟨le_of_lt ht23, fun h => absurd h (ne_of_gt ht23)⟩
  have hcyc2 : moneyReminderCycle env (moneyReminderCycle env s n1) n2 =
      { moneyReminderCycle env s n1 with
        requests := markMoneyReminded (moneyReminderCycle env s n1).requests r2.id n2 } := by
    apply moneyReminderCycle_sendOk hsel2 _ _ hraise hsend
    · rw [hcyc1]
      exact hg2
    · rw [hcyc1]
      exact hu2
  have hm3s2 : r3 ∈ (moneyReminderCycle env (moneyReminderCycle env s n1) n2).requests := by
    rw [hcyc2]
    exact markMoneyReminded_mem_of_ne hm3s1 (Ne.symm hid23)
  have hdec2 : ∀ r' ∈ (moneyReminderCycle env (moneyReminderCycle env s n1) n2).requests,
      r'.reminded_at = none → r' ∈ s.requests ∧ r'.id ≠ r1.id ∧ r'.id ≠ r2.id := by
    intro r' hr' hnone
    rw [hcyc2] at hr'
    have h2 := markMoneyReminded_due_decomp hr' hnone
    have h1 := hdec1 r' h2.1 hnone
    exact ⟨h1.1, h1.2, h2.2⟩
  have hsel3 : selectDueMoney (moneyReminderCycle env (moneyReminderCycle env s n1) n2) n3 =
      some r3 := by
    apply selectDueMoney_eq hm3s2 (le_trans hdue hn13) ha3
    intro r' hr' hle hnone
    rcases hdec2 r' hr' hnone with ⟨hr's, hid1, hid2⟩
    rcases hclass r' hr's hle hnone with rfl | rfl | rfl
    · exact absurd rfl hid1
    · exact absurd rfl hid2
    · exact ⟨le_refl _, fun _ => rfl⟩
  have hcyc3 : moneyReminderCycle env (moneyReminderCycle env (moneyReminderCycle env s n1) n2)
      n3 = { moneyReminderCycle env (moneyReminderCycle env s n1) n2 with
        requests := markMoneyReminded
          (moneyReminderCycle env (moneyReminderCycle env s n1) n2).requests r3.id n3 } := by
    apply moneyReminderCycle_sendOk hsel3 _ _ hraise hsend
    · rw [hcyc2, hcyc1]
      exact hg3
    · rw [hcyc2, hcyc1]
      exact hu3
  refine ⟨hsel1, hsel2, hsel3, ?_⟩
  have hmarked1 : ∀ r ∈ (moneyReminderCycle env s n1).requests, r.id = r1.id →
      r.reminded_at ≠ none := by
    intro r hr hid
    rw [hcyc1] at hr
    rw [markMoneyReminded_marks r hr hid]
    simp
  have hmarked2 : ∀ r ∈ (moneyReminderCycle env (moneyReminderCycle env s n1) n2).requests,
      (r.id = r1.id ∨ r.id = r2.id) → r.reminded_at ≠ none := by
    intro r hr hid
    rw [hcyc2] at hr
    rcases hid with hid | hid
    · exact markMoneyReminded_pres hmarked1 r hr hid
    · rw [markMoneyReminded_marks r hr hid]
      simp
  intro r hr hid
  rw [hcyc3] at hr
  rcases hid with hid | hid | hid
  · exact markMoneyReminded_pres (fun r0 hr0 h0 => hmarked2 r0 hr0 (Or.inl h0)) r hr hid
  · exact markMoneyReminded_pres (fun r0 hr0 h0 => hmarked2 r0 hr0 (Or.inr h0)) r hr hid
  · rw [markMoneyReminded_marks r hr hid]
    simp

/-- Witness for C3 at the concrete three-obligation state c3State, cycles
at times 10, 11 and 12. -/
theorem c3_fairness_witness :
    selectDueMoney c3State 10 = some
      { id := 1, group_id := 10, requester_user_id := 20, amount := 100,
        remind_at := 3, reminded_at := none } ∧
    ∀ r ∈ (moneyReminderCycle c1EnvOk
        (moneyReminderCycle c1EnvOk (moneyReminderCycle c1EnvOk c3State 10) 11) 12).requests,
      (r.id = 1 ∨ r.id = 2 ∨ r.id = 3) → r.reminded_at ≠ none := by
  have h := c3_fairness c1EnvOk c3State
    { id := 1, group_id := 10, requester_user_id := 20, amount := 100,
      remind_at := 3, reminded_at := none }
    { id := 2, group_id := 10, requester_user_id := 21, amount := 200,
      remind_at := 6, reminded_at := none }
    { id := 3, group_id := 11, requester_user_id := 22, amount := 300,
      remind_at := 9, reminded_at := none }
    10 11 12
    (by decide) (by decide) (by decide) (by decide) (by decide) (by decide)
    (by decide) (by decide) (by decide) (by decide) (by decide)
    (by decide) (by decide) (by decide) (by decide)
    (by decide) (by decide) (by decide) (by decide) (by decide) (by decide)
  exact ⟨h.1, h.2.2.2⟩

/-! ## Lemmas about the question cycle -/

theorem mem_dueQuestions {s : QuestionState} {now : Nat} {q : QuestionRow} :
    q ∈ dueQuestions s now ↔ q ∈ s.questions ∧ q.remind_at ≤ now ∧ q.resolved_at = none := by
  simp [dueQuestions, List.mem_filter]

theorem selectDueQuestion_spec {s : QuestionState} {now : Nat} {q : QuestionRow}
    (h : selectDueQuestion s now = some q) :
    q ∈ s.questions ∧ q.remind_at ≤ now ∧ q.resolved_at = none :=
  mem_dueQuestions.mp (selectMin_mem h)

theorem find?_question_eq {s : QuestionState} {q : QuestionRow}
    (hnodup : (s.questions.map (fun q2 => q2.id)).Nodup) (hq : q ∈ s.questions) :
    s.questions.find? (fun q2 => decide (q2.id = q.id)) = some q := by
  cases hf : s.questions.find? (fun q2 => decide (q2.id = q.id)) with
  | none =>
    exfalso
    have hsome : (s.questions.find? (fun q2 => decide (q2.id = q.id))).isSome :=
      List.find?_isSome.mpr ⟨q, hq, by simp⟩
    rw [hf] at hsome
    simp at hsome
  | some q2 =>
    have hm := List.mem_of_find?_eq_some hf
    have hp := List.find?_some hf
    simp only [decide_eq_true_eq] at hp
    rw [List.inj_on_of_nodup_map hnodup hm hq hp]

theorem unresponded_isEmpty_iff {s : QuestionState} {qid : Nat} :
    (unrespondedTargets s qid).isEmpty = true ↔
      ∀ t ∈ s.targets, t.question_id = qid → t.responded_at ≠ none := by
  rw [List.isEmpty_iff, unrespondedTargets, List.filter_eq_nil_iff]
  constructor
  · intro h t ht h1 h2
    exact h t ht (by simp [h1, h2])
  · intro h t ht
    simp only [decide_eq_true_eq, not_and]
    intro h1 h2
    exact h t ht h1 h2

theorem markResponded_decomp {l : List TargetRow} {qid : Nat} {us : List Nat} {now : Nat}
    {t : TargetRow} (h : t ∈ markResponded l qid us now) :
    ∃ t0 ∈ l, t = if t0.question_id = qid ∧ t0.target_user_id ∈ us
      then { t0 with responded_at := some now } else t0 := by
  rcases List.mem_map.mp h with ⟨t0, h0, heq⟩
  exact ⟨t0, h0, heq.symm⟩

theorem markResponded_mem_of_ne {l : List TargetRow} {qid : Nat} {us : List Nat} {now : Nat}
    {t : TargetRow} (h : t ∈ l) (hne : t.question_id ≠ qid) :
    t ∈ markResponded l qid us now := by
  have heq : (if t.question_id = qid ∧ t.target_user_id ∈ us
      then { t with responded_at := some now } else t) = t := by
    rw [if_neg]
    rintro ⟨h1, _⟩
    exact hne h1
  exact heq ▸ List.mem_map_of_mem _ h

theorem markResponded_fields {l : List TargetRow} {qid : Nat} {us : List Nat} {now : Nat}
    {t : TargetRow} (h : t ∈ markResponded l qid us now) :
    ∃ t0 ∈ l, t.question_id = t0.question_id ∧ t.target_user_id = t0.target_user_id ∧
      (t.responded_at = t0.responded_at ∨ t.responded_at = some now) := by
  rcases markResponded_decomp h with ⟨t0, h0, heq⟩
  by_cases hc : t0.question_id = qid ∧ t0.target_user_id ∈ us
  · rw [if_pos hc] at heq
    subst heq
    exact ⟨t0, h0, rfl, rfl, Or.inr rfl⟩
  · rw [if_neg hc] at heq
    subst heq
    exact ⟨t, h0, rfl, rfl, Or.inl rfl⟩

theorem markTargetsReminded_decomp {env : QuestionEnv} {l : List TargetRow} {qid : Nat}
    {users : List Nat} {now : Nat} {t : TargetRow}
    (h : t ∈ markTargetsReminded env l qid users now) :
    ∃ t0 ∈ l, t = if t0.question_id = qid ∧ t0.responded_at = none ∧ t0.reminded_at = none ∧
      t0.target_user_id ∈ users ∧ env.sendOk t0.target_user_id = true
      then { t0 with reminded_at := some now } else t0 := by
  rcases List.mem_map.mp h with ⟨t0, h0, heq⟩
  exact ⟨t0, h0, heq.symm⟩

theorem markTargetsReminded_mem_of_ne {env : QuestionEnv} {l : List TargetRow} {qid : Nat}
    {users : List Nat} {now : Nat} {t : TargetRow} (h : t ∈ l) (hne : t.question_id ≠ qid) :
    t ∈ markTargetsReminded env l qid users now := by
  have heq : (if t.question_id = qid ∧ t.responded_at = none ∧ t.reminded_at = none ∧
      t.target_user_id ∈ users ∧ env.sendOk t.target_user_id = true
      then { t with reminded_at := some now } else t) = t := by
    rw [if_neg]
    rintro ⟨h1, _⟩
    exact hne h1
  exact heq ▸ List.mem_map_of_mem _ h

theorem markTargetsReminded_fields {env : QuestionEnv} {l : List TargetRow} {qid : Nat}
    {users : List Nat} {now : Nat} {t : TargetRow}
    (h : t ∈ markTargetsReminded env l qid users now) :
    ∃ t0 ∈ l, t.question_id = t0.question_id ∧ t.target_user_id = t0.target_user_id ∧
      t.responded_at = t0.responded_at := by
  rcases markTargetsReminded_decomp h with ⟨t0, h0, heq⟩
  by_cases hc : t0.question_id = qid ∧ t0.responded_at = none ∧ t0.reminded_at = none ∧
      t0.target_user_id ∈ users ∧ env.sendOk t0.target_user_id = true
  · rw [if_pos hc] at heq
    subst heq
    exact ⟨t0, h0, rfl, rfl, rfl⟩
  · rw [if_neg hc] at heq
    subst heq
    exact ⟨t, h0, rfl, rfl, rfl⟩

theorem resolveQuestion_decomp {l : List QuestionRow} {qid now : Nat} {q : QuestionRow}
    (h : q ∈ resolveQuestion l qid now) :
    ∃ q0 ∈ l, q = if q0.id = qid then { q0 with resolved_at := some now } else q0 := by
  rcases List.mem_map.mp h with ⟨q0, h0, heq⟩
  exact ⟨q0, h0, heq.symm⟩

theorem resolveQuestion_mem_of_ne {l : List QuestionRow} {qid now : Nat} {q : QuestionRow}
    (h : q ∈ l) (hne : q.id ≠ qid) : q ∈ resolveQuestion l qid now := by
  have heq : (if q.id = qid then { q with resolved_at := some now } else q) = q := if_neg hne
  exact heq ▸ List.mem_map_of_mem _ h

theorem resolveQuestion_mem_self {l : List QuestionRow} {qid now : Nat} {q : QuestionRow}
    (h : q ∈ l) (hq : q.id = qid) :
    { q with resolved_at := some now } ∈ resolveQuestion l qid now := by
  have heq : (if q.id = qid then { q with resolved_at := some now } else q) =
      { q with resolved_at := some now } := if_pos hq
  exact heq ▸ List.mem_map_of_mem _ h

theorem markQuestionReminded_decomp {l : List QuestionRow} {qid now : Nat} {q : QuestionRow}
    (h : q ∈ markQuestionReminded l qid now) :
    ∃ q0 ∈ l, q = if q0.id = qid then { q0 with reminded_at := some now } else q0 := by
  rcases List.mem_map.mp h with ⟨q0, h0, heq⟩
  exact ⟨q0, h0, heq.symm⟩

theorem markQuestionReminded_fields {l : List QuestionRow} {qid now : Nat} {q : QuestionRow}
    (h : q ∈ markQuestionReminded l qid now) :
    ∃ q0 ∈ l, q.id = q0.id ∧ q.resolved_at = q0.resolved_at := by
  rcases markQuestionReminded_decomp h with ⟨q0, h0, heq⟩
  by_cases hc : q0.id = qid
  · rw [if_pos hc] at heq
    subst heq
    exact ⟨q0, h0, rfl, rfl⟩
  · rw [if_neg hc] at heq
    subst heq
    exact ⟨q, h0, rfl, rfl⟩

/-! ## C4 -/

/-- C4 counterexample: in the concrete spec scenario (question at time 0,
remind_at 30, targets 2 and 3, target 2 posted at time 10), the cycle at
time 35 sets the responded_at of target 2 and leaves the question
unresolved, but sends no reminder at all: target 3 keeps reminded_at null
and the sent list is empty, because check_for_responses reports the new
response and the cycle skips the whole reminder block. -/
theorem c4_counterexample :
    (question_reminder_cycle qEnvOk c4State 35).2 = [] ∧
    (∃ t ∈ (question_reminder_cycle qEnvOk c4State 35).1.targets,
      t.id = 201 ∧ t.responded_at = some 35) ∧
    (∃ t ∈ (question_reminder_cycle qEnvOk c4State 35).1.targets,
      t.id = 202 ∧ t.reminded_at = none) ∧
    (∃ q ∈ (question_reminder_cycle qEnvOk c4State 35).1.questions,
      q.id = 100 ∧ q.resolved_at = none) := by
  decide

/-- C4 amended: the cycle at time 35 marks target 2 as responded, sends
nothing and leaves the question unresolved; target 3 receives its single
reminder only on the following cycle (here at time 50), which sets its
reminded_at and still leaves the question unresolved. -/
theorem c4_reminder_next_cycle :
    (question_reminder_cycle qEnvOk c4State 35).2 = [] ∧
    (∃ t ∈ (question_reminder_cycle qEnvOk c4State 35).1.targets,
      t.id = 201 ∧ t.responded_at = some 35) ∧
    (question_reminder_cycle qEnvOk (question_reminder_cycle qEnvOk c4State 35).1 50).2 = [3] ∧
    (∃ t ∈ (question_reminder_cycle qEnvOk
        (question_reminder_cycle qEnvOk c4State 35).1 50).1.targets,
      t.id = 202 ∧ t.reminded_at = some 50 ∧ t.responded_at = none) ∧
    (∃ q ∈ (question_reminder_cycle qEnvOk
        (question_reminder_cycle qEnvOk c4State 35).1 50).1.questions,
      q.id = 100 ∧ q.resolved_at = none) := by
  decide

/-! ## C6 -/

/-- C6: the error handler of the question branch writes reminded_at on the
questions table, but the due query of the question loop filters only on
remind_at and resolved_at, so the poison question of c6State (whose cycle
at time 20 raises) is selected again by the cycle at time 35: marking it
reminded does not unqueue it, contrary to the stated purpose of avoiding
an infinite re-selection loop.  The money branch, by contrast, marks the
poison row on the very column its due query filters on. -/
theorem c6_poison_requeued :
    (∃ q ∈ (question_reminder_cycle c6Env c6State 20).1.questions,
      q.id = 100 ∧ q.reminded_at = some 20 ∧ q.resolved_at = none) ∧
    ((selectDueQuestion (question_reminder_cycle c6Env c6State 20).1 35).map
      (fun q => q.id)) = some 100 := by
  decide

theorem markQuestionReminded_mem_of_ne {l : List QuestionRow} {qid now : Nat} {q : QuestionRow}
    (h : q ∈ l) (hne : q.id ≠ qid) : q ∈ markQuestionReminded l qid now := by
  have heq : (if q.id = qid then { q with reminded_at := some now } else q) = q := if_neg hne
  exact heq ▸ List.mem_map_of_mem _ h

theorem unresponded_exists_of_not_isEmpty {s : QuestionState} {qid : Nat}
    (h : (unrespondedTargets s qid).isEmpty = false) :
    ∃ t ∈ s.targets, t.question_id = qid ∧ t.responded_at = none := by
  have hne : unrespondedTargets s qid ≠ [] := by
    intro hnil
    rw [hnil] at h
    simp at h
  rcases List.exists_mem_of_ne_nil _ hne with ⟨t, ht⟩
  have hm := List.mem_filter.mp ht
  refine ⟨t, hm.1, ?_⟩
  simpa using hm.2

theorem check_cases (s : QuestionState) (qid now : Nat) :
    (check_for_responses s qid now).1 = s ∨
    ∃ q ∈ s.questions,
      (check_for_responses s qid now).1.targets =
        markResponded s.targets qid (respondingUsers s q qid) now ∧
      ((check_for_responses s qid now).1.questions = s.questions ∨
       ((check_for_responses s qid now).1.questions = resolveQuestion s.questions qid now ∧
        (unrespondedTargets (check_for_responses s qid now).1 qid).isEmpty = true)) := by
  unfold check_for_responses
  split
  · exact Or.inl rfl
  next q hf =>
    have hqm := List.mem_of_find?_eq_some hf
    by_cases h1 : (unrespondedTargets s qid).isEmpty = true
    · rw [if_pos h1]
      exact Or.inl rfl
    · rw [if_neg h1]
      by_cases h2 : (laterMessages s q).isEmpty = true
      · rw [if_pos h2]
        exact Or.inl rfl
      · rw [if_neg h2]
        by_cases h3 : (unrespondedTargets (checkMarkState s q qid now) qid).isEmpty = true
        · rw [if_pos h3]
          exact Or.inr ⟨q, hqm, rfl, Or.inr ⟨rfl, h3⟩⟩
        · rw [if_neg h3]
          exact Or.inr ⟨q, hqm, rfl, Or.inl rfl⟩

theorem check_targets_other {s : QuestionState} {qid now : Nat} {t : TargetRow}
    (ht : t ∈ s.targets) (hne : t.question_id ≠ qid) :
    t ∈ (check_for_responses s qid now).1.targets := by
  rcases check_cases s qid now with h | ⟨q, hqm, hts, _⟩
  · rw [h]
    exact ht
  · rw [hts]
    exact markResponded_mem_of_ne ht hne

theorem check_questions_other {s : QuestionState} {qid now : Nat} {qr : QuestionRow}
    (hq : qr ∈ s.questions) (hne : qr.id ≠ qid) :
    qr ∈ (check_for_responses s qid now).1.questions := by
  rcases check_cases s qid now with h | ⟨q, hqm, hts, hqs | ⟨hqs, _⟩⟩
  · rw [h]
    exact hq
  · rw [hqs]
    exact hq
  · rw [hqs]
    exact resolveQuestion_mem_of_ne hq hne

theorem check_resolved_only {s : QuestionState} {qid now : Nat} {q' : QuestionRow}
    (h : q' ∈ (check_for_responses s qid now).1.questions)
    (hres : q'.resolved_at ≠ none) :
    (∃ q0 ∈ s.questions, q0.id = q'.id ∧ q0.resolved_at ≠ none) ∨
    (q'.id = qid ∧
      ∀ t ∈ (check_for_responses s qid now).1.targets,
        t.question_id = qid → t.responded_at ≠ none) := by
  rcases check_cases s qid now with hcase | ⟨q, hqm, hts, hqs | ⟨hqs, hemp⟩⟩
  · rw [hcase] at h
    exact Or.inl ⟨q', h, rfl, hres⟩
  · rw [hqs] at h
    exact Or.inl ⟨q', h, rfl, hres⟩
  · rw [hqs] at h
    rcases resolveQuestion_decomp h with ⟨q0, h0, heq⟩
    by_cases hc : q0.id = qid
    · rw [if_pos hc] at heq
      subst heq
      exact Or.inr ⟨hc, unresponded_isEmpty_iff.mp hemp⟩
    · rw [if_neg hc] at heq
      subst heq
      exact Or.inl ⟨q', h0, rfl, hres⟩

theorem check_targets_sub {s : QuestionState} {qid now : Nat} {t : TargetRow}
    (h : t ∈ (check_for_responses s qid now).1.targets) :
    ∃ t0 ∈ s.targets, t.question_id = t0.question_id ∧ t.target_user_id = t0.target_user_id := by
  rcases check_cases s qid now with hcase | ⟨q, hqm, hts, _⟩
  · rw [hcase] at h
    exact ⟨t, h, rfl, rfl⟩
  · rw [hts] at h
    rcases markResponded_fields h with ⟨t0, h0, h1, h2, _⟩
    exact ⟨t0, h0, h1, h2⟩

theorem bool_ne_true {b : Bool} (h : b = false) : ¬ b = true := by
  rw [h]
  exact Bool.false_ne_true

theorem check_some_all_responded {s : QuestionState} {qid now : Nat} {q : QuestionRow}
    (hf : s.questions.find? (fun q2 => decide (q2.id = qid)) = some q)
    (h1 : (unrespondedTargets s qid).isEmpty = true) :
    check_for_responses s qid now = (s, true) := by
  unfold check_for_responses
  split
  next hq => rw [hf] at hq; cases hq
  next q' hq =>
    rw [hf] at hq
    injection hq with hq
    subst hq
    rw [if_pos h1]

theorem check_msgs_empty {s : QuestionState} {qid now : Nat} {q : QuestionRow}
    (hf : s.questions.find? (fun q2 => decide (q2.id = qid)) = some q)
    (h1 : (unrespondedTargets s qid).isEmpty = false)
    (h2 : (laterMessages s q).isEmpty = true) :
    check_for_responses s qid now = (s, false) := by
  unfold check_for_responses
  split
  next hq => simp [hf] at hq
  next q' hq =>
    rw [hf] at hq
    injection hq with hq
    subst hq
    rw [if_neg (bool_ne_true h1), if_pos h2]

theorem check_main_resolve {s : QuestionState} {qid now : Nat} {q : QuestionRow}
    (hf : s.questions.find? (fun q2 => decide (q2.id = qid)) = some q)
    (h1 : (unrespondedTargets s qid).isEmpty = false)
    (h2 : (laterMessages s q).isEmpty = false)
    (h3 : (unrespondedTargets (checkMarkState s q qid now) qid).isEmpty = true) :
    check_for_responses s qid now =
      ({ checkMarkState s q qid now with
         questions := resolveQuestion (checkMarkState s q qid now).questions qid now }, true) := by
  unfold check_for_responses
  split
  next hq => rw [hf] at hq; cases hq
  next q' hq =>
    rw [hf] at hq
    injection hq with hq
    subst hq
    rw [if_neg (bool_ne_true h1), if_neg (bool_ne_true h2), if_pos h3]

theorem check_main_noresolve {s : QuestionState} {qid now : Nat} {q : QuestionRow}
    (hf : s.questions.find? (fun q2 => decide (q2.id = qid)) = some q)
    (h1 : (unrespondedTargets s qid).isEmpty = false)
    (h2 : (laterMessages s q).isEmpty = false)
    (h3 : (unrespondedTargets (checkMarkState s q qid now) qid).isEmpty = false) :
    check_for_responses s qid now =
      (checkMarkState s q qid now, !(respondingUsers s q qid).isEmpty) := by
  unfold check_for_responses
  split
  next hq => rw [hf] at hq; cases hq
  next q' hq =>
    rw [hf] at hq
    injection hq with hq
    subst hq
    rw [if_neg (bool_ne_true h1), if_neg (bool_ne_true h2), if_neg (bool_ne_true h3)]

theorem cycle_none {env : QuestionEnv} {s : QuestionState} {now : Nat}
    (h : selectDueQuestion s now = none) :
    question_reminder_cycle env s now = (s, []) := by
  unfold question_reminder_cycle
  split
  · rfl
  next q hq => rw [h] at hq; cases hq

theorem cycle_raises {env : QuestionEnv} {s : QuestionState} {now : Nat} {q : QuestionRow}
    (hsel : selectDueQuestion s now = some q) (hr : env.raises = true) :
    question_reminder_cycle env s now =
      ({ s with questions := markQuestionReminded s.questions q.id now }, []) := by
  unfold question_reminder_cycle
  split
  next hq => rw [hsel] at hq; cases hq
  next q' hq =>
    rw [hsel] at hq
    injection hq with hq
    subst hq
    rw [if_pos hr]

theorem cycle_checkTrue {env : QuestionEnv} {s : QuestionState} {now : Nat} {q : QuestionRow}
    (hsel : selectDueQuestion s now = some q) (hr : env.raises = false)
    (hc : (check_for_responses s q.id now).2 = true) :
    question_reminder_cycle env s now = ((check_for_responses s q.id now).1, []) := by
  unfold question_reminder_cycle
  split
  next hq => rw [hsel] at hq; cases hq
  next q' hq =>
    rw [hsel] at hq
    injection hq with hq
    subst hq
    rw [if_neg (bool_ne_true hr), if_pos hc]

theorem cycle_sendResolve {env : QuestionEnv} {s : QuestionState} {now : Nat} {q : QuestionRow}
    (hsel : selectDueQuestion s now = some q) (hr : env.raises = false)
    (hc : (check_for_responses s q.id now).2 = false)
    (hemp : (unrespondedTargets
      (cycleMarkState env (check_for_responses s q.id now).1 q.id now) q.id).isEmpty = true) :
    question_reminder_cycle env s now =
      ({ cycleMarkState env (check_for_responses s q.id now).1 q.id now with
         questions := resolveQuestion
           (cycleMarkState env (check_for_responses s q.id now).1 q.id now).questions q.id now },
       cycleSent env (check_for_responses s q.id now).1 q.id) := by
  unfold question_reminder_cycle
  split
  next hq => rw [hsel] at hq; cases hq
  next q' hq =>
    rw [hsel] at hq
    injection hq with hq
    subst hq
    rw [if_neg (bool_ne_true hr), if_neg (bool_ne_true hc), if_pos hemp]

theorem cycle_sendNoResolve {env : QuestionEnv} {s : QuestionState} {now : Nat} {q : QuestionRow}
    (hsel : selectDueQuestion s now = some q) (hr : env.raises = false)
    (hc : (check_for_responses s q.id now).2 = false)
    (hemp : (unrespondedTargets
      (cycleMarkState env (check_for_responses s q.id now).1 q.id now) q.id).isEmpty = false) :
    question_reminder_cycle env s now =
      (cycleMarkState env (check_for_responses s q.id now).1 q.id now,
       cycleSent env (check_for_responses s q.id now).1 q.id) := by
  unfold question_reminder_cycle
  split
  next hq => rw [hsel] at hq; cases hq
  next q' hq =>
    rw [hsel] at hq
    injection hq with hq
    subst hq
    rw [if_neg (bool_ne_true hr), if_neg (bool_ne_true hc), if_neg (bool_ne_true hemp)]

theorem cycle_targets_other {env : QuestionEnv} {s : QuestionState} {now : Nat} {t : TargetRow}
    (ht : t ∈ s.targets)
    (hne : ∀ q, selectDueQuestion s now = some q → t.question_id ≠ q.id) :
    t ∈ (question_reminder_cycle env s now).1.targets := by
  cases hsel : selectDueQuestion s now with
  | none =>
    rw [cycle_none hsel]
    exact ht
  | some q =>
    have hneq := hne q hsel
    by_cases hr : env.raises = true
    · rw [cycle_raises hsel hr]
      exact ht
    · have hr' := Bool.eq_false_iff.mpr hr
      have htc : t ∈ (check_for_responses s q.id now).1.targets := check_targets_other ht hneq
      by_cases hc : (check_for_responses s q.id now).2 = true
      · rw [cycle_checkTrue hsel hr' hc]
        exact htc
      · have hc' := Bool.eq_false_iff.mpr hc
        by_cases hemp : (unrespondedTargets
            (cycleMarkState env (check_for_responses s q.id now).1 q.id now) q.id).isEmpty = true
        · rw [cycle_sendResolve hsel hr' hc' hemp]
          exact markTargetsReminded_mem_of_ne htc hneq
        · rw [cycle_sendNoResolve hsel hr' hc' (Bool.eq_false_iff.mpr hemp)]
          exact markTargetsReminded_mem_of_ne htc hneq

theorem cycle_questions_other {env : QuestionEnv} {s : QuestionState} {now : Nat}
    {qr : QuestionRow} (hq : qr ∈ s.questions)
    (hne : ∀ q, selectDueQuestion s now = some q → qr.id ≠ q.id) :
    qr ∈ (question_reminder_cycle env s now).1.questions := by
  cases hsel : selectDueQuestion s now with
  | none =>
    rw [cycle_none hsel]
    exact hq
  | some q =>
    have hneq := hne q hsel
    by_cases hr : env.raises = true
    · rw [cycle_raises hsel hr]
      exact markQuestionReminded_mem_of_ne hq hneq
    · have hr' := Bool.eq_false_iff.mpr hr
      have hqc : qr ∈ (check_for_responses s q.id now).1.questions :=
        check_questions_other hq hneq
      by_cases hc : (check_for_responses s q.id now).2 = true
      · rw [cycle_checkTrue hsel hr' hc]
        exact hqc
      · have hc' := Bool.eq_false_iff.mpr hc
        by_cases hemp : (unrespondedTargets
            (cycleMarkState env (check_for_responses s q.id now).1 q.id now) q.id).isEmpty = true
        · rw [cycle_sendResolve hsel hr' hc' hemp]
          exact resolveQuestion_mem_of_ne hqc hneq
        · rw [cycle_sendNoResolve hsel hr' hc' (Bool.eq_false_iff.mpr hemp)]
          exact hqc

theorem cycle_resolved_only {env : QuestionEnv} {s : QuestionState} {now : Nat}
    {q' : QuestionRow} (h : q' ∈ (question_reminder_cycle env s now).1.questions)
    (hres : q'.resolved_at ≠ none) :
    (∃ q0 ∈ s.questions, q0.id = q'.id ∧ q0.resolved_at ≠ none) ∨
    (∀ t ∈ (question_reminder_cycle env s now).1.targets,
      t.question_id = q'.id → t.responded_at ≠ none) := by
  cases hsel : selectDueQuestion s now with
  | none =>
    rw [cycle_none hsel] at h
    exact Or.inl ⟨q', h, rfl, hres⟩
  | some q =>
    by_cases hr : env.raises = true
    · rw [cycle_raises hsel hr] at h
      rcases markQuestionReminded_fields h with ⟨q0, h0, hid, hresf⟩
      exact Or.inl ⟨q0, h0, hid.symm, hresf ▸ hres⟩
    · have hr' := Bool.eq_false_iff.mpr hr
      by_cases hc : (check_for_responses s q.id now).2 = true
      · rw [cycle_checkTrue hsel hr' hc] at h ⊢
        rcases check_resolved_only h hres with hl | ⟨hid, hall⟩
        · exact Or.inl hl
        · right
          intro t ht hq2
          exact hall t ht (hq2.trans hid)
      · have hc' := Bool.eq_false_iff.mpr hc
        by_cases hemp : (unrespondedTargets
            (cycleMarkState env (check_for_responses s q.id now).1 q.id now) q.id).isEmpty = true
        · rw [cycle_sendResolve hsel hr' hc' hemp] at h ⊢
          rcases resolveQuestion_decomp h with ⟨q0, h0, heq⟩
          by_cases hcq : q0.id = q.id
          · rw [if_pos hcq] at heq
            subst heq
            right
            intro t ht hq2
            exact unresponded_isEmpty_iff.mp hemp t ht (hq2.trans hcq)
          · rw [if_neg hcq] at heq
            subst heq
            rcases check_resolved_only h0 hres with hl | ⟨hid, hall⟩
            · exact Or.inl hl
            · right
              intro t ht hq2
              rcases markTargetsReminded_fields ht with ⟨t0, h0t, hq0, _, hresp0⟩
              rw [hresp0]
              exact hall t0 h0t (by rw [← hq0]; exact hq2.trans hid)
        · rw [cycle_sendNoResolve hsel hr' hc' (Bool.eq_false_iff.mpr hemp)] at h ⊢
          rcases check_resolved_only h hres with hl | ⟨hid, hall⟩
          · exact Or.inl hl
          · right
            intro t ht hq2
            rcases markTargetsReminded_fields ht with ⟨t0, h0t, hq0, _, hresp0⟩
            rw [hresp0]
            exact hall t0 h0t (by rw [← hq0]; exact hq2.trans hid)

theorem cycle_sent_of_selected {env : QuestionEnv} {s : QuestionState} {now : Nat}
    {q : QuestionRow} {u : Nat}
    (hsel : selectDueQuestion s now = some q)
    (hu : u ∈ (question_reminder_cycle env s now).2) :
    ∃ t ∈ s.targets, t.question_id = q.id ∧ t.target_user_id = u := by
  by_cases hr : env.raises = true
  · rw [cycle_raises hsel hr] at hu
    simp at hu
  · have hr' := Bool.eq_false_iff.mpr hr
    by_cases hc : (check_for_responses s q.id now).2 = true
    · rw [cycle_checkTrue hsel hr' hc] at hu
      simp at hu
    · have hc' := Bool.eq_false_iff.mpr hc
      have hsent : u ∈ cycleSent env (check_for_responses s q.id now).1 q.id := by
        by_cases hemp : (unrespondedTargets
            (cycleMarkState env (check_for_responses s q.id now).1 q.id now) q.id).isEmpty = true
        · rw [cycle_sendResolve hsel hr' hc' hemp] at hu
          exact hu
        · rw [cycle_sendNoResolve hsel hr' hc' (Bool.eq_false_iff.mpr hemp)] at hu
          exact hu
      rcases List.mem_map.mp hsent with ⟨t, htf, hteq⟩
      have ht1 := List.mem_filter.mp htf
      have ht2 := List.mem_filter.mp ht1.1
      have hqid : t.question_id = q.id := by
        have hp := ht2.2
        simp only [decide_eq_true_eq] at hp
        exact hp.1
      rcases check_targets_sub ht2.1 with ⟨t0, h0, hq0, hu0⟩
      exact ⟨t0, h0, hq0 ▸ hqid, hu0 ▸ hteq⟩

theorem cycle_resolves_when_all_responded {env : QuestionEnv} {s : QuestionState} {now : Nat}
    {q : QuestionRow}
    (hnodup : (s.questions.map (fun q2 => q2.id)).Nodup)
    (hsel : selectDueQuestion s now = some q)
    (hraise : env.raises = false)
    (hunresp : ∃ t ∈ s.targets, t.question_id = q.id ∧ t.responded_at = none)
    (hall : ∀ t ∈ (question_reminder_cycle env s now).1.targets,
      t.question_id = q.id → t.responded_at ≠ none) :
    ∃ q' ∈ (question_reminder_cycle env s now).1.questions,
      q'.id = q.id ∧ q'.resolved_at ≠ none := by
  have hspec := selectDueQuestion_spec hsel
  have hfind := find?_question_eq hnodup hspec.1
  have h1 : (unrespondedTargets s q.id).isEmpty = false := by
    rcases hunresp with ⟨t, ht, hq1, hq2⟩
    cases hb : (unrespondedTargets s q.id).isEmpty
    · rfl
    · exact absurd hq2 (unresponded_isEmpty_iff.mp hb t ht hq1)
  by_cases h2 : (laterMessages s q).isEmpty = true
  · have hcheck := @check_msgs_empty s q.id now q hfind h1 h2
    have hc : (check_for_responses s q.id now).2 = false := by rw [hcheck]
    by_cases hemp : (unrespondedTargets
        (cycleMarkState env (check_for_responses s q.id now).1 q.id now) q.id).isEmpty = true
    · rw [cycle_sendResolve hsel hraise hc hemp]
      refine ⟨{ q with resolved_at := some now }, ?_, rfl, by simp⟩
      apply resolveQuestion_mem_self _ rfl
      rw [hcheck]
      exact hspec.1
    · exfalso
      rcases unresponded_exists_of_not_isEmpty (Bool.eq_false_iff.mpr hemp) with ⟨t, ht, hq1, hq2⟩
      have hpost : t ∈ (question_reminder_cycle env s now).1.targets := by
        rw [cycle_sendNoResolve hsel hraise hc (Bool.eq_false_iff.mpr hemp)]
        exact ht
      exact hall t hpost hq1 hq2
  · have h2' := Bool.eq_false_iff.mpr h2
    by_cases h3 : (unrespondedTargets (checkMarkState s q q.id now) q.id).isEmpty = true
    · have hcheck := check_main_resolve hfind h1 h2' h3
      have hc : (check_for_responses s q.id now).2 = true := by rw [hcheck]
      rw [cycle_checkTrue hsel hraise hc, hcheck]
      refine ⟨{ q with resolved_at := some now }, ?_, rfl, by simp⟩
      exact resolveQuestion_mem_self hspec.1 rfl
    · have h3' := Bool.eq_false_iff.mpr h3
      have hcheck := check_main_noresolve hfind h1 h2' h3'
      by_cases hresp : (respondingUsers s q q.id).isEmpty = true
      · have hc : (check_for_responses s q.id now).2 = false := by
          rw [hcheck, hresp]
          rfl
        by_cases hemp : (unrespondedTargets
            (cycleMarkState env (check_for_responses s q.id now).1 q.id now) q.id).isEmpty = true
        · rw [cycle_sendResolve hsel hraise hc hemp]
          refine ⟨{ q with resolved_at := some now }, ?_, rfl, by simp⟩
          apply resolveQuestion_mem_self _ rfl
          rw [hcheck]
          exact hspec.1
        · exfalso
          rcases unresponded_exists_of_not_isEmpty (Bool.eq_false_iff.mpr hemp) with
            ⟨t, ht, hq1, hq2⟩
          have hpost : t ∈ (question_reminder_cycle env s now).1.targets := by
            rw [cycle_sendNoResolve hsel hraise hc (Bool.eq_false_iff.mpr hemp)]
            exact ht
          exact hall t hpost hq1 hq2
      · have hrespf := Bool.eq_false_iff.mpr hresp
        have hc : (check_for_responses s q.id now).2 = true := by
          rw [hcheck, hrespf]
          rfl
        exfalso
        rcases unresponded_exists_of_not_isEmpty h3' with ⟨t, ht, hq1, hq2⟩
        have hpost : t ∈ (question_reminder_cycle env s now).1.targets := by
          rw [cycle_checkTrue hsel hraise hc, hcheck]
          exact ht
        exact hall t hpost hq1 hq2

/-! ## C5 -/

/-- C5: resolution of a question.  (1) The due query never selects a
resolved question.  (2) A resolved question and all its target rows pass
through a cycle untouched, so no reminder state of a resolved question
ever changes again.  (3) Whenever a cycle produces a question marked
resolved, either it had been resolved before the cycle or every one of its
target rows is responded after the cycle.  (4) Conversely, when the
selected question still had an unresponded target and after the cycle all
its targets are responded, the cycle marked it resolved.  (5) Every
reminder sent by a cycle is addressed to a target row of the selected
question, which by (1) is never a resolved one. -/
theorem c5_resolution (env : QuestionEnv) (s : QuestionState) (now : Nat)
    (hnodup : (s.questions.map (fun q2 => q2.id)).Nodup) :
    (∀ q, selectDueQuestion s now = some q → q.resolved_at = none) ∧
    (∀ qr ∈ s.questions, qr.resolved_at ≠ none →
      qr ∈ (question_reminder_cycle env s now).1.questions ∧
      ∀ t ∈ s.targets, t.question_id = qr.id →
        t ∈ (question_reminder_cycle env s now).1.targets) ∧
    (∀ q' ∈ (question_reminder_cycle env s now).1.questions, q'.resolved_at ≠ none →
      (∃ q0 ∈ s.questions, q0.id = q'.id ∧ q0.resolved_at ≠ none) ∨
      (∀ t ∈ (question_reminder_cycle env s now).1.targets,
        t.question_id = q'.id → t.responded_at ≠ none)) ∧
    (∀ q, selectDueQuestion s now = some q → env.raises = false →
      (∃ t ∈ s.targets, t.question_id = q.id ∧ t.responded_at = none) →
      (∀ t ∈ (question_reminder_cycle env s now).1.targets,
        t.question_id = q.id → t.responded_at ≠ none) →
      ∃ q' ∈ (question_reminder_cycle env s now).1.questions,
        q'.id = q.id ∧ q'.resolved_at ≠ none) ∧
    (∀ q, selectDueQuestion s now = some q →
      ∀ u ∈ (question_reminder_cycle env s now).2,
        ∃ t ∈ s.targets, t.question_id = q.id ∧ t.target_user_id = u) := by
  have hsel_unres : ∀ q, selectDueQuestion s now = some q → q.resolved_at = none :=
    fun q h => (selectDueQuestion_spec h).2.2
  have hne_of_res : ∀ qr ∈ s.questions, qr.resolved_at ≠ none →
      ∀ q, selectDueQuestion s now = some q → qr.id ≠ q.id := by
    intro qr hqr hres q hq hid
    have hqmem := (selectDueQuestion_spec hq).1
    have : qr = q := List.inj_on_of_nodup_map hnodup hqr hqmem hid
    rw [this] at hres
    exact hres (hsel_unres q hq)
  refine ⟨hsel_unres, ?_, ?_, ?_, ?_⟩
  · intro qr hqr hres
    refine ⟨cycle_questions_other hqr (hne_of_res qr hqr hres), ?_⟩
    intro t ht htq
    apply cycle_targets_other ht
    intro q hq
    rw [htq]
    exact hne_of_res qr hqr hres q hq
  · intro q' hq' hres
    exact cycle_resolved_only hq' hres
  · intro q hq hraise hunresp hall
    exact cycle_resolves_when_all_responded hnodup hq hraise hunresp hall
  · intro q hq u hu
    exact cycle_sent_of_selected hq hu

/-- Witness for C5 at c5State: the single target of question 100 has
responded, one cycle resolves the question, and the cycle sends nothing. -/
theorem c5_resolution_witness :
    (∃ q' ∈ (question_reminder_cycle qEnvOk c5State 35).1.questions,
      q'.id = 100 ∧ q'.resolved_at ≠ none) ∧
    (question_reminder_cycle qEnvOk c5State 35).2 = [] := by
  have h := c5_resolution qEnvOk c5State 35 (by decide)
  refine ⟨?_, by decide⟩
  exact h.2.2.2.1 ⟨100, 10, 1, 30, 0, none, none⟩ (by decide) (by decide) (by decide) (by decide)

/-! ## C7 -/

theorem processEvent_dup {iter s : List Nat} {m : Nat} (h : m ∈ s) :
    processEvent iter s m = { seen := s, saved := 0, replies := 0 } := by
  unfold processEvent
  rw [if_pos h]

theorem processEvent_fresh {iter s : List Nat} {m : Nat} (h : m ∉ s) :
    (processEvent iter s m).saved = 1 ∧ (processEvent iter s m).replies = 1 := by
  unfold processEvent
  rw [if_neg h]
  exact ⟨rfl, rfl⟩

/-- C7: replaying an event id that is still inside the dedup window is
dropped before any side effect: processing a fresh id persists one message
and sends one reply, and a second delivery of the same id (while the id is
still in the seen set) changes nothing and adds no effect, so the combined
effect of the two deliveries equals that of one. -/
theorem c7_dedup_idempotent (iter1 iter2 s : List Nat) (m : Nat)
    (hfresh : m ∉ s)
    (hwindow : m ∈ (processEvent iter1 s m).seen) :
    processEvent iter2 (processEvent iter1 s m).seen m =
      { seen := (processEvent iter1 s m).seen, saved := 0, replies := 0 } ∧
    (processEvent iter1 s m).saved +
      (processEvent iter2 (processEvent iter1 s m).seen m).saved = 1 ∧
    (processEvent iter1 s m).replies +
      (processEvent iter2 (processEvent iter1 s m).seen m).replies = 1 := by
  have hdup := @processEvent_dup iter2 ((processEvent iter1 s m).seen) m hwindow
  have hfr := @processEvent_fresh iter1 s m hfresh
  refine ⟨hdup, ?_, ?_⟩
  · rw [hdup, hfr.1]
    rfl
  · rw [hdup, hfr.2]
    rfl

/-- Witness for C7: a fresh id on an empty window, replayed once. -/
theorem c7_dedup_idempotent_witness :
    (5 ∉ ([] : List Nat)) ∧ 5 ∈ (processEvent [] [] 5).seen ∧
    processEvent [] (processEvent [] [] 5).seen 5 =
      { seen := (processEvent [] [] 5).seen, saved := 0, replies := 0 } := by
  have h1 : processEvent [] [] 5 = { seen := [5], saved := 1, replies := 1 } := by
    unfold processEvent
    rw [if_neg (List.not_mem_nil 5), if_neg (by simp)]
    rfl
  have h2 : 5 ∈ (processEvent [] [] 5).seen := by
    rw [h1]
    exact List.mem_singleton.mpr rfl
  exact ⟨List.not_mem_nil 5, h2, (c7_dedup_idempotent [] [] [] 5 (List.not_mem_nil 5) h2).1⟩

/-! ## C9 -/

/-- C9: the eviction is not restricted to the 500 earliest-seen ids.  The
ids 0 to 999 arrived in order and id 1000 is inserted, triggering the
cleanup.  c9Iter is a legitimate iteration order of the resulting Python
set (a permutation of its elements, which is all the language guarantees),
and under it the newest id 1000 is evicted while the old id 999 survives,
contradicting the claim that exactly the 500 earliest-seen ids are evicted
and newer ids remain. -/
theorem c9_eviction_not_oldest :
    c9Iter.Perm (c9Insertion ++ [1000]) ∧
    (1000 ∉ c9Insertion) ∧
    1000 ∉ (processEvent c9Iter c9Insertion 1000).seen ∧
    999 ∈ (processEvent c9Iter c9Insertion 1000).seen := by
  have hperm : c9Iter.Perm (c9Insertion ++ [1000]) := by
    unfold c9Iter c9Insertion
    have h : (1000 :: List.range 1000) = [1000] ++ List.range 1000 := rfl
    rw [h]
    exact List.perm_append_comm
  have hmem : (1000 : Nat) ∉ c9Insertion := by
    simp [c9Insertion, List.mem_range]
  have hlen : 1000 < (c9Insertion ++ [1000]).length := by
    simp [c9Insertion]
  have hseen : (processEvent c9Iter c9Insertion 1000).seen =
      (c9Insertion ++ [1000]).filter (fun x => decide (x ∉ c9Iter.take 500)) := by
    unfold processEvent
    rw [if_neg hmem, if_pos hlen]
  have htake : c9Iter.take 500 = 1000 :: List.range 499 := by
    show (1000 :: List.range 1000).take 500 = 1000 :: List.range 499
    rw [List.take_succ_cons, List.take_range]
    norm_num
  refine ⟨hperm, hmem, ?_, ?_⟩
  · rw [hseen]
    intro hin
    have := (List.mem_filter.mp hin).2
    rw [htake] at this
    simp at this
  · rw [hseen]
    apply List.mem_filter.mpr
    constructor
    · apply List.mem_append.mpr
      left
      simp [c9Insertion, List.mem_range]
    · rw [htake]
      simp [List.mem_range]

/-! ## C8 -/

/-- C8 counterexample: a malformed (non-JSON) classifier response in
MoneyCheckerService is not folded to a negative verdict: the regex
fallback produces a positive verdict and process_group_message saves a
money obligation of amount 5000, both for the ASCII message 5000YEN and
for the full-width ５０００YEN that Python backslash-d and int() accept. -/
theorem c8_counterexample :
    process_group_message_saves none "5000円" = some (PyVal.vint 5000) ∧
    process_group_message_saves none "５０００円" = some (PyVal.vint 5000) ∧
    process_group_message_saves none "５０００円" ≠ none := by
  refine ⟨rfl, rfl, ?_⟩
  intro h
  rw [show process_group_message_saves none "５０００円" = some (PyVal.vint 5000) from rfl] at h
  cases h

/-- C8 amended: the money detector of main.py and the question detector
fold a malformed response to a negative verdict and nothing propagates;
MoneyCheckerService instead replaces a malformed response by a positive
regex fallback verdict, and saves an obligation exactly when the message
text contains a run of Unicode decimal digits followed by optional
Unicode whitespace and the yen sign, with a nonzero value. -/
theorem c8_malformed_boundary (members : List Nat) (text : String) :
    detect_money_request_action none = none ∧
    detect_question_and_targets none members text = none ∧
    (∀ n, scanYen text.toList = some n → 0 < n →
      process_group_message_saves none text = some (PyVal.vint (Int.ofNat n))) ∧
    (∀ v, process_group_message_saves none text = some v →
      ∃ n, 0 < n ∧ scanYen text.toList = some n ∧ v = PyVal.vint (Int.ofNat n)) := by
  have hgetIs : pyGet (detect_payment_request none text) "is_payment_request" =
      PyVal.vbool true := rfl
  have hgetAm : pyGet (detect_payment_request none text) "amount" = fallbackAmount text := rfl
  refine ⟨rfl, rfl, ?_, ?_⟩
  · intro n hscan hpos
    have hamt : fallbackAmount text = PyVal.vint (Int.ofNat n) := by
      unfold fallbackAmount
      rw [hscan]
    have htr : pyTruthy (PyVal.vint (Int.ofNat n)) = true := by
      simp [pyTruthy]
      omega
    unfold process_group_message_saves
    rw [hgetIs, hgetAm, hamt, htr]
    rfl
  · intro v hv
    unfold process_group_message_saves at hv
    rw [hgetIs, hgetAm] at hv
    cases hscan : scanYen text.toList with
    | none =>
      have hamt : fallbackAmount text = PyVal.vnone := by
        unfold fallbackAmount
        rw [hscan]
      rw [hamt] at hv
      simp [pyTruthy] at hv
    | some n =>
      have hamt : fallbackAmount text = PyVal.vint (Int.ofNat n) := by
        unfold fallbackAmount
        rw [hscan]
      rw [hamt] at hv
      by_cases hn : n = 0
      · subst hn
        simp [pyTruthy] at hv
      · have htr : pyTruthy (PyVal.vint (Int.ofNat n)) = true := by
          simp [pyTruthy]
          omega
        rw [htr] at hv
        have hv2 : some (PyVal.vint (Int.ofNat n)) = some v := by
          rw [← hv]
          rfl
        injection hv2 with hv2
        exact ⟨n, Nat.pos_of_ne_zero hn, rfl, hv2.symm⟩

/-- Witness for C8 amended at a concrete fallback input with full-width
digits and an ideographic space before the yen sign. -/
theorem c8_malformed_boundary_witness :
    scanYen ("５０００　円お願いします").toList = some 5000 ∧
    process_group_message_saves none "５０００　円お願いします" =
      some (PyVal.vint (Int.ofNat 5000)) := by
  refine ⟨rfl, ?_⟩
  exact (c8_malformed_boundary [] "５０００　円お願いします").2.2.1 5000 rfl (by decide)

/-! ## C10 -/

/-- C10 counterexample: the classifier response with the non-integer
amount 12.7 (a rational with denominator 10) still creates a money
obligation: Python int() truncates the float to 12, which is positive, so
create_money_request is invoked with amount 12. -/
theorem c10_counterexample :
    (mkRat 127 10).den ≠ 1 ∧
    detect_money_request_action (some c10Resp) = some 12 := by
  refine ⟨by decide, by decide⟩

/-- C10 amended: a money obligation row is created exactly when the
response has a truthy yes field, an amount key whose value converts by
Python int() semantics (identity on integers, 0 or 1 on booleans,
truncation toward zero on floats, and on strings the int() grammar of
stripped surrounding whitespace, optional sign, Unicode decimal digits
and single underscores between digits; error on None), and the converted
value is strictly positive.  In particular a missing amount key, a
failing conversion, or a converted value lesseq 0 never creates a row,
while a non-integer float above 1 does. -/
theorem c10_amount_conversion (parsed : Option PyObj) :
    (∀ a, detect_money_request_action parsed = some a →
      0 < a ∧ ∃ obj, parsed = some obj ∧ pyHasKey obj "amount" = true ∧
        pyTruthy (pyGet obj "yes") = true ∧ pyToInt (pyGet obj "amount") = some a) ∧
    (∀ obj, parsed = some obj → pyHasKey obj "amount" = false →
      detect_money_request_action parsed = none) ∧
    (∀ obj a, parsed = some obj → pyToInt (pyGet obj "amount") = some a → a ≤ 0 →
      detect_money_request_action parsed = none) ∧
    (∀ obj, parsed = some obj → pyToInt (pyGet obj "amount") = none →
      detect_money_request_action parsed = none) := by
  cases parsed with
  | none =>
    refine ⟨?_, ?_, ?_, ?_⟩
    · intro a h
      simp [detect_money_request_action] at h
    · intro obj h
      cases h
    · intro obj a h
      cases h
    · intro obj h
      cases h
  | some dt =>
    have hred : detect_money_request_action (some dt) =
        if (pyTruthy (pyGet dt "yes") && pyHasKey dt "amount") = true then
          (match pyToInt (pyGet dt "amount") with
           | some a => if 0 < a then some a else none
           | none => none)
        else none := rfl
    refine ⟨?_, ?_, ?_, ?_⟩
    · intro a h
      rw [hred] at h
      by_cases hcond : (pyTruthy (pyGet dt "yes") && pyHasKey dt "amount") = true
      · rw [if_pos hcond] at h
        have hparts : pyTruthy (pyGet dt "yes") = true ∧ pyHasKey dt "amount" = true := by
          simpa using hcond
        cases hto : pyToInt (pyGet dt "amount") with
        | none =>
          rw [hto] at h
          cases h
        | some a0 =>
          rw [hto] at h
          have h2 : (if 0 < a0 then some a0 else none) = some a := h
          by_cases hpos : 0 < a0
          · rw [if_pos hpos] at h2
            injection h2 with h2
            subst h2
            exact ⟨hpos, dt, rfl, hparts.2, hparts.1, hto⟩
          · rw [if_neg hpos] at h2
            cases h2
      · rw [if_neg hcond] at h
        cases h
    · intro obj hobj hk
      injection hobj with hobj
      subst hobj
      rw [hred, if_neg]
      rw [Bool.and_eq_true]
      rintro ⟨-, h2⟩
      rw [hk] at h2
      cases h2
    · intro obj a hobj hto hle
      injection hobj with hobj
      subst hobj
      rw [hred]
      by_cases hcond : (pyTruthy (pyGet dt "yes") && pyHasKey dt "amount") = true
      · rw [if_pos hcond, hto]
        show (if 0 < a then some a else none) = none
        rw [if_neg (not_lt.mpr hle)]
      · rw [if_neg hcond]
    · intro obj hobj hto
      injection hobj with hobj
      subst hobj
      rw [hred]
      by_cases hcond : (pyTruthy (pyGet dt "yes") && pyHasKey dt "amount") = true
      · rw [if_pos hcond, hto]
      · rw [if_neg hcond]

/-- Witness for C10 amended: the string amount with surrounding space and
an underscore that Python int() converts to 1000 really creates a row,
and a zero integer amount never does. -/
theorem c10_amount_conversion_witness :
    detect_money_request_action (some [("yes", PyVal.vbool true),
      ("amount", PyVal.vstr " 1_000")]) = some 1000 ∧
    (0 : Int) < 1000 ∧
    pyToInt (PyVal.vstr " 1_000") = some 1000 ∧
    detect_money_request_action (some [("yes", PyVal.vbool true),
      ("amount", PyVal.vint 0)]) = none := by
  have h1 := (c10_amount_conversion (some [("yes", PyVal.vbool true),
    ("amount", PyVal.vstr " 1_000")])).1 1000 rfl
  have h2 := (c10_amount_conversion (some [("yes", PyVal.vbool true),
    ("amount", PyVal.vint 0)])).2.2.1 [("yes", PyVal.vbool true), ("amount", PyVal.vint 0)]
    0 rfl rfl (le_refl 0)
  exact ⟨rfl, h1.1, rfl, h2⟩

end PkshaHack
